import Mathlib

/-!
# Solana Vault Standard — verification of the conversion math engine and vault ledger

Shallow embedding of the `svs-1` / `svs-2` programs and the proof backend.
Machine integers are modelled as `Nat` (resp. `Int` for `i64`/`i8`) with the
checked arithmetic of the source made explicit: every `checked_add` /
`checked_mul` / `checked_pow` of the Rust code becomes an `Option Nat` guarded
by the corresponding `MAX` bound, and fallible functions return `Except`.
-/

namespace SVS

def U64_MAX : Nat := 2 ^ 64 - 1

def U128_MAX : Nat := 2 ^ 128 - 1

/-- Rust `u64::checked_add` on values already known to be in range. -/
def checked_add64 (a b : Nat) : Option Nat :=
  if a + b ≤ U64_MAX then some (a + b) else none

/-- Rust `u128::checked_add`. -/
def checked_add128 (a b : Nat) : Option Nat :=
  if a + b ≤ U128_MAX then some (a + b) else none

/-- Rust `u128::checked_mul`. -/
def checked_mul128 (a b : Nat) : Option Nat :=
  if a * b ≤ U128_MAX then some (a * b) else none

/-- Rust `u128::checked_sub`. -/
def checked_sub128 (a b : Nat) : Option Nat :=
  if b ≤ a then some (a - b) else none

/-- Rust `u64::checked_sub`. -/
def checked_sub64 (a b : Nat) : Option Nat :=
  if b ≤ a then some (a - b) else none

/-- Rust `10u64.checked_pow(d)` — Rust's exponentiation by squaring with
`checked_mul` at every step succeeds (for base 10 ≥ 1) exactly when the final
power fits in `u64`, since every intermediate divides the final result. -/
def checked_pow10 (d : Nat) : Option Nat :=
  if 10 ^ d ≤ U64_MAX then some (10 ^ d) else none

/-- Error type `VaultError` (svs-2 superset; svs-1 uses the first ten variants). -/
inductive VaultError where
  | ZeroAmount
  | SlippageExceeded
  | VaultPaused
  | InvalidAssetDecimals
  | MathOverflow
  | DivisionByZero
  | InsufficientShares
  | InsufficientAssets
  | Unauthorized
  | DepositTooSmall
  | AccountNotConfigured
  | PendingBalanceNotApplied
  | InvalidProof
  | ConfidentialTransferNotInitialized
  | InvalidCiphertext
  deriving DecidableEq, Repr

inductive Rounding where
  | Floor
  | Ceiling
  deriving DecidableEq, Repr

/-- Function `mul_div` from `svs-1/src/math.rs`: `(value × numerator) / denominator`
with a u128 intermediate; `Ceiling` adds `denominator - 1` (via checked add
then checked sub) before dividing. -/
def mul_div (value numerator denominator : Nat) (rounding : Rounding) :
    Except VaultError Nat :=
  if denominator = 0 then Except.error VaultError.DivisionByZero
  else
    match checked_mul128 value numerator with
    | none => Except.error VaultError.MathOverflow
    | some product =>
      let resOpt : Option Nat :=
        match rounding with
        | Rounding.Floor => some (product / denominator)
        | Rounding.Ceiling =>
          match checked_add128 product denominator with
          | none => none
          | some s =>
            match checked_sub128 s 1 with
            | none => none
            | some t => some (t / denominator)
      match resOpt with
      | none => Except.error VaultError.MathOverflow
      | some result =>
        if result ≤ U64_MAX then Except.ok result
        else Except.error VaultError.MathOverflow

/-- Function `convert_to_shares` from `svs-1/src/math.rs`:
`shares = assets × (total_shares + 10^offset) / (total_assets + 1)`. -/
def convert_to_shares (assets total_assets total_shares : Nat)
    (decimals_offset : Nat) (rounding : Rounding) : Except VaultError Nat :=
  match checked_pow10 decimals_offset with
  | none => Except.error VaultError.MathOverflow
  | some offset =>
    match checked_add64 total_shares offset with
    | none => Except.error VaultError.MathOverflow
    | some virtual_shares =>
      match checked_add64 total_assets 1 with
      | none => Except.error VaultError.MathOverflow
      | some virtual_assets =>
        mul_div assets virtual_shares virtual_assets rounding

/-- Function `convert_to_assets` from `svs-1/src/math.rs`:
`assets = shares × (total_assets + 1) / (total_shares + 10^offset)`. -/
def convert_to_assets (shares total_assets total_shares : Nat)
    (decimals_offset : Nat) (rounding : Rounding) : Except VaultError Nat :=
  match checked_pow10 decimals_offset with
  | none => Except.error VaultError.MathOverflow
  | some offset =>
    match checked_add64 total_shares offset with
    | none => Except.error VaultError.MathOverflow
    | some virtual_shares =>
      match checked_add64 total_assets 1 with
      | none => Except.error VaultError.MathOverflow
      | some virtual_assets =>
        mul_div shares virtual_assets virtual_shares rounding

/-- Vault state: the fields of svs-1 `Vault` / svs-2 `ConfidentialVault` that
the ledger operations read or write. Pubkeys are abstracted as `Nat`
identifiers; token-account balances a handler reads are passed explicitly. -/
structure Vault where
  authority : Nat
  total_assets : Nat
  decimals_offset : Nat
  paused : Bool
  deriving DecidableEq, Repr

/-- Constant `MIN_DEPOSIT_AMOUNT` from svs-2 constants.rs. -/
def MIN_DEPOSIT_AMOUNT : Nat := 1000

structure DepositResult where
  vault : Vault
  shares : Nat
  deriving DecidableEq, Repr

structure MintResult where
  vault : Vault
  assets : Nat
  deriving DecidableEq, Repr

structure WithdrawResult where
  vault : Vault
  shares : Nat
  deriving DecidableEq, Repr

structure RedeemResult where
  vault : Vault
  assets : Nat
  deriving DecidableEq, Repr

/-- The `deposit` handler (svs-2/src/instructions/deposit.rs). The `!vault.paused`
Anchor account constraint runs before the handler body; token CPIs move
balances held outside the vault record. `total_shares` is the shares mint
supply read from the `shares_mint` account. -/
def deposit_handler (vault : Vault) (total_shares assets min_shares_out : Nat) :
    Except VaultError DepositResult :=
  if vault.paused then Except.error VaultError.VaultPaused
  else if assets = 0 then Except.error VaultError.ZeroAmount
  else if assets < MIN_DEPOSIT_AMOUNT then Except.error VaultError.DepositTooSmall
  else
    match convert_to_shares assets vault.total_assets total_shares
        vault.decimals_offset Rounding.Floor with
    | Except.error e => Except.error e
    | Except.ok shares =>
      if shares < min_shares_out then Except.error VaultError.SlippageExceeded
      else
        match checked_add64 vault.total_assets assets with
        | none => Except.error VaultError.MathOverflow
        | some ta =>
          Except.ok
            ⟨Vault.mk vault.authority ta vault.decimals_offset vault.paused,
              shares⟩

/-- The `mint` handler (svs-1/src/instructions/mint.rs): mint exact shares,
paying the Ceiling-rounded asset amount. -/
def mint_handler (vault : Vault) (total_shares shares max_assets_in : Nat) :
    Except VaultError MintResult :=
  if vault.paused then Except.error VaultError.VaultPaused
  else if shares = 0 then Except.error VaultError.ZeroAmount
  else
    match convert_to_assets shares vault.total_assets total_shares
        vault.decimals_offset Rounding.Ceiling with
    | Except.error e => Except.error e
    | Except.ok assets =>
      if assets > max_assets_in then Except.error VaultError.SlippageExceeded
      else
        match checked_add64 vault.total_assets assets with
        | none => Except.error VaultError.MathOverflow
        | some ta =>
          Except.ok
            ⟨Vault.mk vault.authority ta vault.decimals_offset vault.paused,
              assets⟩

/-- The `redeem` handler (svs-1/src/instructions/redeem.rs): redeem shares for
Floor-rounded assets. `user_shares_balance` is `user_shares_account.amount`. -/
def redeem_handler (vault : Vault)
    (total_shares user_shares_balance shares min_assets_out : Nat) :
    Except VaultError RedeemResult :=
  if vault.paused then Except.error VaultError.VaultPaused
  else if shares = 0 then Except.error VaultError.ZeroAmount
  else if user_shares_balance < shares then
    Except.error VaultError.InsufficientShares
  else
    match convert_to_assets shares vault.total_assets total_shares
        vault.decimals_offset Rounding.Floor with
    | Except.error e => Except.error e
    | Except.ok assets =>
      if assets < min_assets_out then Except.error VaultError.SlippageExceeded
      else if assets > vault.total_assets then
        Except.error VaultError.InsufficientAssets
      else
        match checked_sub64 vault.total_assets assets with
        | none => Except.error VaultError.MathOverflow
        | some ta =>
          Except.ok
            ⟨Vault.mk vault.authority ta vault.decimals_offset vault.paused,
              assets⟩

/-- Modelled from the spec: the `withdraw` instruction handler is declared in
`svs-2/src/instructions/mod.rs` but its source file is not present under src/.
Per spec §4.2/§4.1, `withdraw(assets, maxSharesIn)` is the exit operation
symmetric to `redeem`: zero-amount and pause checks, shares owed computed with
Ceiling rounding, SlippageExceeded when the shares owed exceed `maxSharesIn`,
the symmetric balance/asset sufficiency checks, and a decrement of the cached
`total_assets`. -/
def withdraw_handler (vault : Vault)
    (total_shares user_shares_balance assets max_shares_in : Nat) :
    Except VaultError WithdrawResult :=
  if vault.paused then Except.error VaultError.VaultPaused
  else if assets = 0 then Except.error VaultError.ZeroAmount
  else
    match convert_to_shares assets vault.total_assets total_shares
        vault.decimals_offset Rounding.Ceiling with
    | Except.error e => Except.error e
    | Except.ok shares =>
      if shares > max_shares_in then Except.error VaultError.SlippageExceeded
      else if user_shares_balance < shares then
        Except.error VaultError.InsufficientShares
      else if assets > vault.total_assets then
        Except.error VaultError.InsufficientAssets
      else
        match checked_sub64 vault.total_assets assets with
        | none => Except.error VaultError.MathOverflow
        | some ta =>
          Except.ok
            ⟨Vault.mk vault.authority ta vault.decimals_offset vault.paused,
              shares⟩

/-- The `pause` instruction (svs-2/src/instructions/admin.rs). The `Admin` accounts struct
checks `authority.key() == vault.authority` (else `Unauthorized`) before the
handler body runs. -/
def pause (vault : Vault) (caller : Nat) : Except VaultError Vault :=
  if caller ≠ vault.authority then Except.error VaultError.Unauthorized
  else if vault.paused then Except.error VaultError.VaultPaused
  else
    Except.ok
      (Vault.mk vault.authority vault.total_assets vault.decimals_offset true)

/-- The `unpause` instruction (svs-2/src/instructions/admin.rs). -/
def unpause (vault : Vault) (caller : Nat) : Except VaultError Vault :=
  if caller ≠ vault.authority then Except.error VaultError.Unauthorized
  else if vault.paused then
    Except.ok
      (Vault.mk vault.authority vault.total_assets vault.decimals_offset false)
  else Except.error VaultError.VaultPaused

/-- The `sync` instruction (svs-2/src/instructions/admin.rs): overwrite the cached
`total_assets` with the custody token account balance
(`asset_vault.amount`). -/
def sync (vault : Vault) (caller : Nat) (asset_vault_amount : Nat) :
    Except VaultError Vault :=
  if caller ≠ vault.authority then Except.error VaultError.Unauthorized
  else
    Except.ok
      (Vault.mk vault.authority asset_vault_amount vault.decimals_offset
        vault.paused)

/-- The proof location selected by `configure_account` for the
`inner_configure_account` instruction it issues. -/
inductive ProofLocation where
  | contextStateAccount (key : Nat)
  | instructionOffset (offset : Int)
  deriving DecidableEq, Repr

/-- The `configure_account` handler decision logic
(svs-2/src/instructions/configure_account.rs). The reallocate and
`inner_configure_account` CPIs are external call-outs (the whole transaction
reverts if the handler errors, so configuration never proceeds on error);
what the handler itself decides is: `try_from_bytes::<PodAeCiphertext>` on the
36-byte `decryptable_zero_balance` (else `InvalidCiphertext`), then the proof
location — a supplied pre-verified context account, or else
`NonZeroI8::new(proof_instruction_offset)`, which is `None` exactly when the
offset is zero, mapped to `InvalidProof`. -/
def configure_account_handler (proof_context_account : Option Nat)
    (decryptable_zero_balance : List Nat) (proof_instruction_offset : Int) :
    Except VaultError ProofLocation :=
  if decryptable_zero_balance.length ≠ 36 then
    Except.error VaultError.InvalidCiphertext
  else
    match proof_context_account with
    | some key => Except.ok (ProofLocation.contextStateAccount key)
    | none =>
      if proof_instruction_offset = 0 then Except.error VaultError.InvalidProof
      else Except.ok (ProofLocation.instructionOffset proof_instruction_offset)

/-- Proof backend error taxonomy (proof-backend/src/error.rs variants used
here). -/
inductive BackendError where
  | InvalidSignature
  | InvalidPubkey
  | RequestExpired
  | BadRequest
  | ProofGeneration
  deriving DecidableEq, Repr

/-- Bytes `b"SVS_PROOF_REQUEST"`: the byte values of the ASCII string
`SVS_PROOF_REQUEST` (17 bytes). -/
def svsProofRequestBytes : List Nat :=
  [83, 86, 83, 95, 80, 82, 79, 79, 70, 95, 82, 69, 81, 85, 69, 83, 84]

/-- Bytes `b"range"`: the byte values of the ASCII string `range` (5 bytes). -/
def rangeBytes : List Nat := [114, 97, 110, 103, 101]

/-- Little-endian byte decomposition: `natLeBytes k v` is the first `k`
base-256 digits of `v`. -/
def natLeBytes : Nat → Nat → List Nat
  | 0, _ => []
  | k + 1, v => v % 256 :: natLeBytes k (v / 256)

/-- Rust `i64::to_le_bytes`: two's-complement little-endian encoding. -/
def i64LeBytes (t : Int) : List Nat := natLeBytes 8 (t % (2 ^ 64)).toNat

/-- Backend `ProofGenerator::construct_request_message`
(proof-backend/src/services/proof_generator.rs):
`b"SVS_PROOF_REQUEST" ++ timestamp.to_le_bytes() ++ token_account`. -/
def construct_request_message (timestamp : Int) (token_account : List Nat) :
    List Nat :=
  svsProofRequestBytes ++ i64LeBytes timestamp ++ token_account

/-- Backend `ProofGenerator::construct_range_request_message`:
`b"SVS_PROOF_REQUEST" ++ timestamp.to_le_bytes() ++ b"range"`. -/
def construct_range_request_message (timestamp : Int) : List Nat :=
  svsProofRequestBytes ++ i64LeBytes timestamp ++ rangeBytes

/-- Modelled from the spec's words, for refinement comparison with
`construct_request_message`: spec §4.4 states the signed template is
`"PROOF_REQUEST" || timestamp || context-specific-fields`; here the prefix is
the byte values of the ASCII string `PROOF_REQUEST` (13 bytes). -/
def spec_request_message (timestamp : Int) (token_account : List Nat) :
    List Nat :=
  [80, 82, 79, 79, 70, 95, 82, 69, 81, 85, 69, 83, 84] ++
    i64LeBytes timestamp ++ token_account

/-- Backend `ProofGenerator::verify_request_signature`: `sig_verify` abstracts
`Signature::verify` of the ed25519 collaborator, taking the signature, the
public key, and the message; the service rejects with `InvalidSignature`
exactly when it returns false on the constructed request message. -/
def verify_request_signature (sig_verify : List Nat → List Nat → List Nat → Bool)
    (wallet_pubkey : List Nat) (timestamp : Int) (token_account : List Nat)
    (signature : List Nat) : Except BackendError Unit :=
  if sig_verify signature wallet_pubkey
      (construct_request_message timestamp token_account) then
    Except.ok ()
  else Except.error BackendError.InvalidSignature

/-- Backend `ProofGenerator::verify_range_request_signature`. -/
def verify_range_request_signature
    (sig_verify : List Nat → List Nat → List Nat → Bool)
    (wallet_pubkey : List Nat) (timestamp : Int) (signature : List Nat) :
    Except BackendError Unit :=
  if sig_verify signature wallet_pubkey
      (construct_range_request_message timestamp) then
    Except.ok ()
  else Except.error BackendError.InvalidSignature

instance {ε α : Type} [DecidableEq ε] [DecidableEq α] :
    DecidableEq (Except ε α) := fun a b =>
  match a, b with
  | Except.error e, Except.error f =>
    if h : e = f then Decidable.isTrue (by rw [h])
    else Decidable.isFalse (fun hh => h (Except.error.inj hh))
  | Except.ok x, Except.ok y =>
    if h : x = y then Decidable.isTrue (by rw [h])
    else Decidable.isFalse (fun hh => h (Except.ok.inj hh))
  | Except.error _, Except.ok _ => Decidable.isFalse (fun hh => Except.noConfusion hh)
  | Except.ok _, Except.error _ => Decidable.isFalse (fun hh => Except.noConfusion hh)

-- Sanity checks mirroring the Rust unit tests in math.rs.
example : mul_div 100 3 2 Rounding.Floor = Except.ok 150 := rfl
example : mul_div 100 1 3 Rounding.Floor = Except.ok 33 := rfl
example : mul_div 100 1 3 Rounding.Ceiling = Except.ok 34 := rfl
example : mul_div 100 100 0 Rounding.Floor =
    Except.error VaultError.DivisionByZero := rfl
example : convert_to_shares 1000000 0 0 3 Rounding.Floor =
    Except.ok 1000000000 := rfl
example : convert_to_shares 1 1000000 0 3 Rounding.Floor = Except.ok 0 := rfl

theorem checked_pow10_some {d x : Nat} (h : checked_pow10 d = some x) :
    x = 10 ^ d ∧ 10 ^ d ≤ U64_MAX := by
  unfold checked_pow10 at h
  split at h <;> simp_all

theorem checked_add64_some {a b x : Nat} (h : checked_add64 a b = some x) :
    x = a + b ∧ a + b ≤ U64_MAX := by
  unfold checked_add64 at h
  split at h <;> simp_all

theorem checked_mul128_some {a b x : Nat} (h : checked_mul128 a b = some x) :
    x = a * b ∧ a * b ≤ U128_MAX := by
  unfold checked_mul128 at h
  split at h <;> simp_all

theorem checked_add128_some {a b x : Nat} (h : checked_add128 a b = some x) :
    x = a + b ∧ a + b ≤ U128_MAX := by
  unfold checked_add128 at h
  split at h <;> simp_all

/-- Inversion for `mul_div` with `Floor`: success means the denominator was
nonzero, the u128 product fit, and the result is the floored quotient. -/
theorem mul_div_floor_ok {v n d x : Nat}
    (h : mul_div v n d Rounding.Floor = Except.ok x) :
    d ≠ 0 ∧ v * n ≤ U128_MAX ∧ x = v * n / d ∧ x ≤ U64_MAX := by
  unfold mul_div at h
  split at h
  · exact absurd h (by simp)
  · rename_i hd
    cases hm : checked_mul128 v n with
    | none => rw [hm] at h; exact absurd h (by simp)
    | some p =>
      rw [hm] at h
      obtain ⟨hp, hle⟩ := checked_mul128_some hm
      simp only at h
      split at h
      · rename_i hres
        exact ⟨hd, by omega, by simp_all, by simp_all⟩
      · exact absurd h (by simp)

/-- Inversion for `mul_div` with `Ceiling`: the result is
`(v*n + d - 1) / d`. -/
theorem mul_div_ceiling_ok {v n d x : Nat}
    (h : mul_div v n d Rounding.Ceiling = Except.ok x) :
    d ≠ 0 ∧ v * n + d ≤ U128_MAX ∧ x = (v * n + d - 1) / d ∧ x ≤ U64_MAX := by
  unfold mul_div at h
  split at h
  · exact absurd h (by simp)
  · rename_i hd
    cases hm : checked_mul128 v n with
    | none => rw [hm] at h; exact absurd h (by simp)
    | some p =>
      rw [hm] at h
      obtain ⟨hp, hle⟩ := checked_mul128_some hm
      subst hp
      simp only at h
      cases hadd : checked_add128 (v * n) d with
      | none => rw [hadd] at h; exact absurd h (by simp)
      | some s =>
        rw [hadd] at h
        obtain ⟨hs, hsle⟩ := checked_add128_some hadd
        subst hs
        simp only at h
        cases hsub : checked_sub128 (v * n + d) 1 with
        | none => rw [hsub] at h; exact absurd h (by simp)
        | some t =>
          rw [hsub] at h
          have ht : t = v * n + d - 1 := by
            unfold checked_sub128 at hsub
            split at hsub <;> simp_all
          subst ht
          simp only at h
          split at h
          · rename_i hres
            exact ⟨hd, hsle, by simp_all, by simp_all⟩
          · exact absurd h (by simp)

/-- Inversion for `convert_to_shares`: success reduces to a successful
`mul_div` on the virtual quantities. -/
theorem convert_to_shares_ok {a TA TS d : Nat} {r : Rounding} {s : Nat}
    (h : convert_to_shares a TA TS d r = Except.ok s) :
    10 ^ d ≤ U64_MAX ∧ TS + 10 ^ d ≤ U64_MAX ∧ TA + 1 ≤ U64_MAX ∧
      mul_div a (TS + 10 ^ d) (TA + 1) r = Except.ok s := by
  unfold convert_to_shares at h
  cases hp : checked_pow10 d with
  | none => rw [hp] at h; exact absurd h (by simp)
  | some off =>
    rw [hp] at h
    obtain ⟨hoff, hpow⟩ := checked_pow10_some hp
    subst hoff
    simp only at h
    cases ha : checked_add64 TS (10 ^ d) with
    | none => rw [ha] at h; exact absurd h (by simp)
    | some vs =>
      rw [ha] at h
      obtain ⟨hvs, hvsle⟩ := checked_add64_some ha
      subst hvs
      simp only at h
      cases hb : checked_add64 TA 1 with
      | none => rw [hb] at h; exact absurd h (by simp)
      | some va =>
        rw [hb] at h
        obtain ⟨hva, hvale⟩ := checked_add64_some hb
        subst hva
        simp only at h
        exact ⟨hpow, hvsle, hvale, h⟩

/-- Inversion for `convert_to_assets`. -/
theorem convert_to_assets_ok {s TA TS d : Nat} {r : Rounding} {a : Nat}
    (h : convert_to_assets s TA TS d r = Except.ok a) :
    10 ^ d ≤ U64_MAX ∧ TS + 10 ^ d ≤ U64_MAX ∧ TA + 1 ≤ U64_MAX ∧
      mul_div s (TA + 1) (TS + 10 ^ d) r = Except.ok a := by
  unfold convert_to_assets at h
  cases hp : checked_pow10 d with
  | none => rw [hp] at h; exact absurd h (by simp)
  | some off =>
    rw [hp] at h
    obtain ⟨hoff, hpow⟩ := checked_pow10_some hp
    subst hoff
    simp only at h
    cases ha : checked_add64 TS (10 ^ d) with
    | none => rw [ha] at h; exact absurd h (by simp)
    | some vs =>
      rw [ha] at h
      obtain ⟨hvs, hvsle⟩ := checked_add64_some ha
      subst hvs
      simp only at h
      cases hb : checked_add64 TA 1 with
      | none => rw [hb] at h; exact absurd h (by simp)
      | some va =>
        rw [hb] at h
        obtain ⟨hva, hvale⟩ := checked_add64_some hb
        subst hva
        simp only at h
        exact ⟨hpow, hvsle, hvale, h⟩

/-- C1: with `total_assets = D ≥ 10^d` donated into a vault with zero shares,
a Floor-rounded deposit of 1 unit of asset converts to exactly 0 shares. -/
theorem inflation_attack_zero_shares (d D : Nat)
    (hpow : 10 ^ d ≤ U64_MAX) (hD : 10 ^ d ≤ D) (hD1 : D + 1 ≤ U64_MAX) :
    convert_to_shares 1 D 0 d Rounding.Floor = Except.ok 0 := by
  have h1 : checked_pow10 d = some (10 ^ d) := by
    simp [checked_pow10, hpow]
  have h2 : checked_add64 0 (10 ^ d) = some (10 ^ d) := by
    simp [checked_add64]
    omega
  have h3 : checked_add64 D 1 = some (D + 1) := by
    simp [checked_add64, hD1]
  have hm : checked_mul128 1 (10 ^ d) = some (10 ^ d) := by
    simp only [checked_mul128, one_mul]
    rw [if_pos (by unfold U64_MAX U128_MAX at *; omega)]
  have hdiv : 10 ^ d / (D + 1) = 0 := Nat.div_eq_of_lt (by omega)
  simp only [convert_to_shares, h1, h2, h3, mul_div, hm]
  rw [if_neg (by omega)]
  simp only [hdiv]
  rw [if_pos (by unfold U64_MAX; omega)]

theorem inflation_attack_zero_shares_witness :
    10 ^ 3 ≤ U64_MAX ∧ 10 ^ 3 ≤ 1000000 ∧ 1000000 + 1 ≤ U64_MAX ∧
      convert_to_shares 1 1000000 0 3 Rounding.Floor = Except.ok 0 :=
  ⟨by decide, by decide, by decide,
    inflation_attack_zero_shares 3 1000000 (by decide) (by decide) (by decide)⟩

/-- C2: when Floor and Ceiling `mul_div` both succeed on a positive
denominator, the Floor result is the exact rational rounded down, the Ceiling
result the rational rounded up, and Floor ≤ rational ≤ Ceiling. -/
theorem mul_div_floor_le_ceiling (value numerator denominator f c : Nat)
    (_hv : value ≤ U64_MAX) (_hn : numerator ≤ U64_MAX)
    (_hd : denominator ≤ U64_MAX) (hden : 0 < denominator)
    (hf : mul_div value numerator denominator Rounding.Floor = Except.ok f)
    (hc : mul_div value numerator denominator Rounding.Ceiling = Except.ok c) :
    f ≤ c ∧
      denominator * f ≤ value * numerator ∧
      value * numerator < denominator * f + denominator ∧
      value * numerator ≤ denominator * c ∧
      denominator * c < value * numerator + denominator := by
  obtain ⟨-, -, hfe, -⟩ := mul_div_floor_ok hf
  obtain ⟨-, -, hce, -⟩ := mul_div_ceiling_ok hc
  subst hfe hce
  have hfl := Nat.div_add_mod (value * numerator) denominator
  have hflm := Nat.mod_lt (value * numerator) hden
  have hcl := Nat.div_add_mod (value * numerator + denominator - 1) denominator
  have hclm := Nat.mod_lt (value * numerator + denominator - 1) hden
  refine ⟨Nat.div_le_div_right (by omega), by omega, by omega, by omega, by omega⟩

theorem mul_div_floor_le_ceiling_witness :
    100 ≤ U64_MAX ∧ 1 ≤ U64_MAX ∧ 3 ≤ U64_MAX ∧ 0 < 3 ∧
      mul_div 100 1 3 Rounding.Floor = Except.ok 33 ∧
      mul_div 100 1 3 Rounding.Ceiling = Except.ok 34 ∧
      (33 ≤ 34 ∧ 3 * 33 ≤ 100 * 1 ∧ 100 * 1 < 3 * 33 + 3 ∧
        100 * 1 ≤ 3 * 34 ∧ 3 * 34 < 100 * 1 + 3) :=
  ⟨by decide, by decide, by decide, by decide, rfl, rfl,
    mul_div_floor_le_ceiling 100 1 3 33 34 (by decide) (by decide) (by decide)
      (by decide) rfl rfl⟩

theorem mul_div_only_overflow (v n dd : Nat) (r : Rounding) (h : dd ≠ 0) :
    mul_div v n dd r = Except.error VaultError.MathOverflow ∨
      ∃ x, mul_div v n dd r = Except.ok x := by
  unfold mul_div
  rw [if_neg h]
  cases hm : checked_mul128 v n with
  | none => exact Or.inl rfl
  | some p =>
    simp only
    cases r with
    | Floor =>
      simp only
      split
      · exact Or.inr ⟨_, rfl⟩
      · exact Or.inl rfl
    | Ceiling =>
      simp only
      cases ha : checked_add128 p dd with
      | none => exact Or.inl rfl
      | some s =>
        simp only
        cases hs : checked_sub128 s 1 with
        | none => exact Or.inl rfl
        | some t =>
          simp only
          split
          · exact Or.inr ⟨_, rfl⟩
          · exact Or.inl rfl

theorem checked_sub64_some {a b x : Nat} (h : checked_sub64 a b = some x) :
    x = a - b ∧ b ≤ a := by
  unfold checked_sub64 at h
  split at h <;> simp_all

/-- C3: single-round-trip no-drain — depositing `a` (Floor) and immediately
redeeming all received shares against the grown vault (Floor) pays out at
most `a`. -/
theorem single_round_trip_no_drain (a TA TS d s A : Nat)
    (_ha : a ≤ U64_MAX) (_hTA : TA ≤ U64_MAX) (_hTS : TS ≤ U64_MAX)
    (_hd : d ≤ 255)
    (hs : convert_to_shares a TA TS d Rounding.Floor = Except.ok s)
    (hA : convert_to_assets s (TA + a) (TS + s) d Rounding.Floor =
      Except.ok A) :
    A ≤ a := by
  obtain ⟨hpow, hvsle, hvale, hmd⟩ := convert_to_shares_ok hs
  obtain ⟨-, -, -, hmd2⟩ := convert_to_assets_ok hA
  obtain ⟨hden1, hle1, hse, -⟩ := mul_div_floor_ok hmd
  obtain ⟨hden2, hle2, hAe, -⟩ := mul_div_floor_ok hmd2
  have hV : 0 < TS + 10 ^ d := by
    have : 0 < 10 ^ d := pow_pos (by norm_num) d
    omega
  have h1 : s * (TA + 1) ≤ a * (TS + 10 ^ d) := by
    rw [hse]
    exact Nat.div_mul_le_self _ _
  have hpos : 0 < TS + s + 10 ^ d := by omega
  have hkey : s * (TA + a + 1) < (a + 1) * (TS + s + 10 ^ d) := by
    have hexp : (a + 1) * (TS + s + 10 ^ d) =
        a * (TS + 10 ^ d) + a * s + (TS + s + 10 ^ d) := by ring
    have hexp2 : s * (TA + a + 1) = s * (TA + 1) + s * a := by ring
    have hcomm : s * a = a * s := Nat.mul_comm s a
    omega
  rw [hAe]
  have hlt : s * (TA + a + 1) / (TS + s + 10 ^ d) < a + 1 :=
    (Nat.div_lt_iff_lt_mul hpos).mpr hkey
  omega

theorem single_round_trip_no_drain_witness :
    100000 ≤ U64_MAX ∧ 1000000 ≤ U64_MAX ∧ 1000000 ≤ U64_MAX ∧ 3 ≤ 255 ∧
      convert_to_shares 100000 1000000 1000000 3 Rounding.Floor =
        Except.ok 100099 ∧
      convert_to_assets 100099 (1000000 + 100000) (1000000 + 100099) 3
        Rounding.Floor = Except.ok 99999 ∧
      99999 ≤ 100000 :=
  ⟨by decide, by decide, by decide, by decide, rfl, rfl,
    single_round_trip_no_drain 100000 1000000 1000000 3 100099 99999
      (by decide) (by decide) (by decide) (by decide) rfl rfl⟩

/-- C4: per-operation rounding policy — a successful deposit mints the
Floor-converted shares, a successful mint charges the Ceiling-converted
assets, a successful withdraw burns the Ceiling-converted shares, and a
successful redeem pays the Floor-converted assets. -/
theorem per_operation_rounding_policy (v : Vault)
    (TS bal amount b1 b2 b3 b4 : Nat) :
    (∀ r, deposit_handler v TS amount b1 = Except.ok r →
      convert_to_shares amount v.total_assets TS v.decimals_offset
        Rounding.Floor = Except.ok r.shares) ∧
    (∀ r, mint_handler v TS amount b2 = Except.ok r →
      convert_to_assets amount v.total_assets TS v.decimals_offset
        Rounding.Ceiling = Except.ok r.assets) ∧
    (∀ r, withdraw_handler v TS bal amount b3 = Except.ok r →
      convert_to_shares amount v.total_assets TS v.decimals_offset
        Rounding.Ceiling = Except.ok r.shares) ∧
    (∀ r, redeem_handler v TS bal amount b4 = Except.ok r →
      convert_to_assets amount v.total_assets TS v.decimals_offset
        Rounding.Floor = Except.ok r.assets) := by
  refine ⟨?_, ?_, ?_, ?_⟩
  · intro r h
    unfold deposit_handler at h
    split at h
    · exact absurd h (by simp)
    split at h
    · exact absurd h (by simp)
    split at h
    · exact absurd h (by simp)
    cases hc : convert_to_shares amount v.total_assets TS v.decimals_offset
        Rounding.Floor with
    | error e => rw [hc] at h; exact absurd h (by simp)
    | ok shares =>
      rw [hc] at h
      simp only at h
      split at h
      · exact absurd h (by simp)
      cases hca : checked_add64 v.total_assets amount with
      | none => rw [hca] at h; exact absurd h (by simp)
      | some ta =>
        rw [hca] at h
        simp only at h
        injection h with h2
        subst h2
        rfl
  · intro r h
    unfold mint_handler at h
    split at h
    · exact absurd h (by simp)
    split at h
    · exact absurd h (by simp)
    cases hc : convert_to_assets amount v.total_assets TS v.decimals_offset
        Rounding.Ceiling with
    | error e => rw [hc] at h; exact absurd h (by simp)
    | ok assets =>
      rw [hc] at h
      simp only at h
      split at h
      · exact absurd h (by simp)
      cases hca : checked_add64 v.total_assets assets with
      | none => rw [hca] at h; exact absurd h (by simp)
      | some ta =>
        rw [hca] at h
        simp only at h
        injection h with h2
        subst h2
        rfl
  · intro r h
    unfold withdraw_handler at h
    split at h
    · exact absurd h (by simp)
    split at h
    · exact absurd h (by simp)
    cases hc : convert_to_shares amount v.total_assets TS v.decimals_offset
        Rounding.Ceiling with
    | error e => rw [hc] at h; exact absurd h (by simp)
    | ok shares =>
      rw [hc] at h
      simp only at h
      split at h
      · exact absurd h (by simp)
      split at h
      · exact absurd h (by simp)
      split at h
      · exact absurd h (by simp)
      cases hca : checked_sub64 v.total_assets amount with
      | none => rw [hca] at h; exact absurd h (by simp)
      | some ta =>
        rw [hca] at h
        simp only at h
        injection h with h2
        subst h2
        rfl
  · intro r h
    unfold redeem_handler at h
    split at h
    · exact absurd h (by simp)
    split at h
    · exact absurd h (by simp)
    split at h
    · exact absurd h (by simp)
    cases hc : convert_to_assets amount v.total_assets TS v.decimals_offset
        Rounding.Floor with
    | error e => rw [hc] at h; exact absurd h (by simp)
    | ok assets =>
      rw [hc] at h
      simp only at h
      split at h
      · exact absurd h (by simp)
      split at h
      · exact absurd h (by simp)
      cases hca : checked_sub64 v.total_assets assets with
      | none => rw [hca] at h; exact absurd h (by simp)
      | some ta =>
        rw [hca] at h
        simp only at h
        injection h with h2
        subst h2
        rfl

theorem per_operation_rounding_policy_witness :
    convert_to_shares 100000 (Vault.mk 0 1000000 3 false).total_assets 1000000
      (Vault.mk 0 1000000 3 false).decimals_offset Rounding.Floor =
        Except.ok 100099 ∧
    convert_to_assets 100000 (Vault.mk 0 1000000 3 false).total_assets 1000000
      (Vault.mk 0 1000000 3 false).decimals_offset Rounding.Ceiling =
        Except.ok 99901 ∧
    convert_to_shares 100000 (Vault.mk 0 1000000 3 false).total_assets 1000000
      (Vault.mk 0 1000000 3 false).decimals_offset Rounding.Ceiling =
        Except.ok 100100 ∧
    convert_to_assets 100000 (Vault.mk 0 1000000 3 false).total_assets 1000000
      (Vault.mk 0 1000000 3 false).decimals_offset Rounding.Floor =
        Except.ok 99900 :=
  ⟨(per_operation_rounding_policy (Vault.mk 0 1000000 3 false) 1000000 1000000
      100000 0 1000000000 1000000000 0).1
      ⟨Vault.mk 0 1100000 3 false, 100099⟩ rfl,
    (per_operation_rounding_policy (Vault.mk 0 1000000 3 false) 1000000 1000000
      100000 0 1000000000 1000000000 0).2.1
      ⟨Vault.mk 0 1099901 3 false, 99901⟩ rfl,
    (per_operation_rounding_policy (Vault.mk 0 1000000 3 false) 1000000 1000000
      100000 0 1000000000 1000000000 0).2.2.1
      ⟨Vault.mk 0 900000 3 false, 100100⟩ rfl,
    (per_operation_rounding_policy (Vault.mk 0 1000000 3 false) 1000000 1000000
      100000 0 1000000000 1000000000 0).2.2.2
      ⟨Vault.mk 0 900100 3 false, 99900⟩ rfl⟩

/-- C5: pause/unpause are strictly edge-triggered for the authorized caller:
`pause` fails `VaultPaused` iff the vault is already paused (success sets the
flag), `unpause` fails `VaultPaused` iff it is not paused (success clears the
flag), and the same call twice in a row always fails the second time. -/
theorem pause_unpause_edge_triggered (v : Vault) (c : Nat)
    (hc : c = v.authority) :
    (pause v c = Except.error VaultError.VaultPaused ↔ v.paused = true) ∧
    (∀ v1, pause v c = Except.ok v1 → v1.paused = true) ∧
    (unpause v c = Except.error VaultError.VaultPaused ↔ v.paused = false) ∧
    (∀ v1, unpause v c = Except.ok v1 → v1.paused = false) ∧
    (∀ v1, pause v c = Except.ok v1 →
      pause v1 c = Except.error VaultError.VaultPaused) ∧
    (∀ v1, unpause v c = Except.ok v1 →
      unpause v1 c = Except.error VaultError.VaultPaused) := by
  subst hc
  obtain ⟨auth, ta, doff, p⟩ := v
  cases p <;> simp [pause, unpause]

theorem pause_unpause_edge_triggered_witness :
    ((0 : Nat) = (Vault.mk 0 5 3 false).authority) ∧
    (pause (Vault.mk 0 5 3 false) 0 = Except.error VaultError.VaultPaused ↔
      (Vault.mk 0 5 3 false).paused = true) ∧
    pause (Vault.mk 0 5 3 true) 0 = Except.error VaultError.VaultPaused :=
  ⟨rfl, (pause_unpause_edge_triggered (Vault.mk 0 5 3 false) 0 rfl).1,
    (pause_unpause_edge_triggered (Vault.mk 0 5 3 false) 0 rfl).2.2.2.2.1
      (Vault.mk 0 5 3 true) rfl⟩

/-- C6 counterexample: with an unpaused vault of `total_assets = 0`, shares
supply 1, caller balance 2, `redeem(2, 5)` has Floor payout 1 which exceeds
the cached `total_assets`, yet the handler fails `SlippageExceeded` (the
slippage check runs first), not `InsufficientAssets`. -/
theorem redeem_slippage_shadows_insufficient_assets :
    convert_to_assets 2 0 1 0 Rounding.Floor = Except.ok 1 ∧
    (Vault.mk 7 0 0 false).total_assets < 1 ∧
    redeem_handler (Vault.mk 7 0 0 false) 1 2 2 5 =
      Except.error VaultError.SlippageExceeded ∧
    redeem_handler (Vault.mk 7 0 0 false) 1 2 2 5 ≠
      Except.error VaultError.InsufficientAssets :=
  ⟨rfl, by decide, rfl, by decide⟩

/-- C6 (amended): for an unpaused vault and nonzero `shares`, `redeem` fails
`InsufficientShares` whenever the caller's balance is below `shares`; it fails
`InsufficientAssets` whenever the balance suffices, the Floor payout is
computed, meets `min_assets_out`, and exceeds the cached `total_assets`; and
on success the cached `total_assets` drops by exactly the computed payout. -/
theorem redeem_error_conditions (v : Vault) (TS bal shares mao : Nat)
    (hp : v.paused = false) (hs : shares ≠ 0) :
    (bal < shares →
      redeem_handler v TS bal shares mao =
        Except.error VaultError.InsufficientShares) ∧
    (∀ P, shares ≤ bal →
      convert_to_assets shares v.total_assets TS v.decimals_offset
        Rounding.Floor = Except.ok P →
      mao ≤ P → v.total_assets < P →
      redeem_handler v TS bal shares mao =
        Except.error VaultError.InsufficientAssets) ∧
    (∀ r, redeem_handler v TS bal shares mao = Except.ok r →
      convert_to_assets shares v.total_assets TS v.decimals_offset
        Rounding.Floor = Except.ok r.assets ∧
      r.vault.total_assets + r.assets = v.total_assets) := by
  refine ⟨?_, ?_, ?_⟩
  · intro hb
    unfold redeem_handler
    rw [if_neg (by simp [hp]), if_neg (by simp [hs]), if_pos hb]
  · intro P hbal hconv hmao hta
    unfold redeem_handler
    rw [if_neg (by simp [hp]), if_neg (by simp [hs]),
      if_neg (by omega), hconv]
    simp only
    rw [if_neg (by omega), if_pos (by omega)]
  · intro r h
    unfold redeem_handler at h
    rw [if_neg (by simp [hp]), if_neg (by simp [hs])] at h
    split at h
    · exact absurd h (by simp)
    split at h
    · exact absurd h (by simp)
    rename_i assets hc
    split at h
    · exact absurd h (by simp)
    split at h
    · exact absurd h (by simp)
    cases hca : checked_sub64 v.total_assets assets with
    | none => rw [hca] at h; exact absurd h (by simp)
    | some ta =>
      rw [hca] at h
      simp only at h
      injection h with h2
      subst h2
      obtain ⟨hta2, hle2⟩ := checked_sub64_some hca
      refine ⟨hc, ?_⟩
      show ta + assets = v.total_assets
      omega

theorem redeem_error_conditions_witness :
    (Vault.mk 0 100 0 false).paused = false ∧ (2 : Nat) ≠ 0 ∧ (1 : Nat) < 2 ∧
      redeem_handler (Vault.mk 0 100 0 false) 10 1 2 0 =
        Except.error VaultError.InsufficientShares :=
  ⟨rfl, by decide, by decide,
    (redeem_error_conditions (Vault.mk 0 100 0 false) 10 1 2 0 rfl
      (by decide)).1 (by decide)⟩

/-- C7: `sync` overwrites the cached `total_assets` with the custody token
account balance, and with no intervening transfer a second `sync` against the
same balance leaves `total_assets` as after the first. -/
theorem sync_overwrite_idempotent (v : Vault) (c bal : Nat)
    (hc : c = v.authority) :
    (∀ v1, sync v c bal = Except.ok v1 → v1.total_assets = bal) ∧
    (∀ v1 v2, sync v c bal = Except.ok v1 → sync v1 c bal = Except.ok v2 →
      v2.total_assets = v1.total_assets) := by
  subst hc
  unfold sync
  rw [if_neg (by simp)]
  constructor
  · intro v1 h
    injection h with h2
    subst h2
    rfl
  · intro v1 v2 h1 h2
    injection h1 with h1
    subst h1
    rw [if_neg (by simp)] at h2
    injection h2 with h2
    subst h2
    rfl

theorem sync_overwrite_idempotent_witness :
    ((3 : Nat) = (Vault.mk 3 77 2 false).authority) ∧
      (∀ v1, sync (Vault.mk 3 77 2 false) 3 500 = Except.ok v1 →
        v1.total_assets = 500) :=
  ⟨rfl, (sync_overwrite_idempotent (Vault.mk 3 77 2 false) 3 500 rfl).1⟩

/-- C8: `configure_account` with no proof context account and a zero
`proof_instruction_offset` fails `InvalidProof` (so no configure instruction
is issued and configuration does not proceed). -/
theorem configure_account_requires_proof (zb : List Nat) (off : Int)
    (hlen : zb.length = 36) (hoff : off = 0) :
    configure_account_handler none zb off =
      Except.error VaultError.InvalidProof := by
  subst hoff
  unfold configure_account_handler
  rw [if_neg (by omega)]
  rfl

theorem configure_account_requires_proof_witness :
    (List.replicate 36 0).length = 36 ∧ ((0 : Int) = 0) ∧
      configure_account_handler none (List.replicate 36 0) 0 =
        Except.error VaultError.InvalidProof :=
  ⟨by decide, rfl,
    configure_account_requires_proof (List.replicate 36 0) 0 (by decide) rfl⟩

/-- C9 counterexample: the request message the backend actually signs over
starts with `b"SVS_PROOF_REQUEST"`, not the spec's
`"PROOF_REQUEST" || timestamp || fields` template. -/
theorem request_message_deviates_from_spec_template :
    construct_request_message 0 (List.replicate 32 0) ≠
      spec_request_message 0 (List.replicate 32 0) := by decide

/-- C9 (amended): the backend verifies the request signature over exactly
`b"SVS_PROOF_REQUEST" || timestamp_le_bytes || token_account` (resp.
`|| b"range"` for range requests) and rejects with `InvalidSignature`
precisely when the abstract ed25519 verifier refuses that message. -/
theorem request_signature_verification
    (V : List Nat → List Nat → List Nat → Bool)
    (wallet acct sig : List Nat) (t : Int) :
    (verify_request_signature V wallet t acct sig =
        Except.error BackendError.InvalidSignature ↔
      V sig wallet (svsProofRequestBytes ++ i64LeBytes t ++ acct) = false) ∧
    (verify_request_signature V wallet t acct sig = Except.ok () ↔
      V sig wallet (svsProofRequestBytes ++ i64LeBytes t ++ acct) = true) ∧
    (verify_range_request_signature V wallet t sig =
        Except.error BackendError.InvalidSignature ↔
      V sig wallet (svsProofRequestBytes ++ i64LeBytes t ++ rangeBytes) =
        false) ∧
    (verify_range_request_signature V wallet t sig = Except.ok () ↔
      V sig wallet (svsProofRequestBytes ++ i64LeBytes t ++ rangeBytes) =
        true) := by
  unfold verify_request_signature verify_range_request_signature
    construct_request_message construct_range_request_message
  cases hV : V sig wallet (svsProofRequestBytes ++ i64LeBytes t ++ acct) <;>
    cases hV2 : V sig wallet
      (svsProofRequestBytes ++ i64LeBytes t ++ rangeBytes) <;>
    simp [hV, hV2]

/-- C10: the conversion entry points never produce `DivisionByZero`: the
denominator handed to `mul_div` is `total_assets + 1 ≥ 1` resp.
`total_shares + 10^d ≥ 1`, so each call either succeeds or fails with
`MathOverflow`. -/
theorem conversion_never_division_by_zero :
    ∀ (x TA TS d : Nat) (r : Rounding),
      (convert_to_shares x TA TS d r = Except.error VaultError.MathOverflow ∨
        ∃ n, convert_to_shares x TA TS d r = Except.ok n) ∧
      (convert_to_assets x TA TS d r = Except.error VaultError.MathOverflow ∨
        ∃ n, convert_to_assets x TA TS d r = Except.ok n) := by
  intro x TA TS d r
  constructor
  · unfold convert_to_shares
    cases hp : checked_pow10 d with
    | none => exact Or.inl rfl
    | some off =>
      simp only
      cases ha : checked_add64 TS off with
      | none => exact Or.inl rfl
      | some vs =>
        simp only
        cases hb : checked_add64 TA 1 with
        | none => exact Or.inl rfl
        | some va =>
          simp only
          obtain ⟨hva, -⟩ := checked_add64_some hb
          exact mul_div_only_overflow x vs va r (by omega)
  · unfold convert_to_assets
    cases hp : checked_pow10 d with
    | none => exact Or.inl rfl
    | some off =>
      simp only
      cases ha : checked_add64 TS off with
      | none => exact Or.inl rfl
      | some vs =>
        simp only
        cases hb : checked_add64 TA 1 with
        | none => exact Or.inl rfl
        | some va =>
          simp only
          obtain ⟨hoff, -⟩ := checked_pow10_some hp
          obtain ⟨hvs, -⟩ := checked_add64_some ha
          have : vs ≠ 0 := by
            have : 0 < 10 ^ d := Nat.pos_pow_of_pos d (by omega)
            omega
          exact mul_div_only_overflow x va vs r this

end SVS
